import Mathlib

/-!
Shallow embedding of the `summon_python` plugin.

The module-resolution logic lives in `summon_python/project.py`; the command
builders live in `summon_python/tasks.py` and `summon_python/plugin.py`.
External effects are modelled as explicit parameters:

* `Env.glob`      — `base_path.glob(pattern)` for the ambient base path (`Path.cwd()`),
                    returning the matching paths rendered as strings;
* `Env.hasFile`   — whether a directory contains a file of a given name;
* `Env.ancestors` — the ambient base directory followed by its parents, nearest first;
* `Env.load`      — `toml.load` applied to a file path.

Python exceptions are modelled with `Except PyError`.
-/

namespace SummonPython

/-- A TOML value as produced by `toml.load`: `bool`, `float`, `int`, `str`,
list, or dict.  The code under study never inspects the value of a float,
so the `float` constructor carries no payload. -/
inductive TomlObject where
  | bool (b : Bool)
  | int (n : Int)
  | float
  | str (s : String)
  | arr (elems : List TomlObject)
  | dict (entries : List (String × TomlObject))
deriving Repr

/-- A Python dict of TOML values, as an association list (Python dict keys are
unique; lookup takes the first binding). -/
abbrev TomlDict := List (String × TomlObject)

/-- `d.get(key)` on a Python dict: `none` when the key is absent. -/
def dictGet (d : TomlDict) (key : String) : Option TomlObject :=
  (d.find? (fun kv => kv.1 == key)).map (fun kv => kv.2)

/-- The loop of `read_toml_variable`: at each path component, a non-dict
(including a `None` produced by the previous `get`) yields `None`. -/
def readTomlVariableLoop : Option TomlObject → List String → Option TomlObject
  | obj, [] => obj
  | some (TomlObject.dict d), p :: ps => readTomlVariableLoop (dictGet d p) ps
  | _, _ :: _ => none

/-- `read_toml_variable`: read a variable from a dict loaded from a Toml file. -/
def read_toml_variable (toml_dict : TomlDict) (path : List String) : Option TomlObject :=
  readTomlVariableLoop (some (TomlObject.dict toml_dict)) path

/-- The string carried by a `str` value, if any. -/
def asStr : TomlObject → Option String
  | TomlObject.str s => some s
  | _ => none

/-- The strings carried by a value that is a list of strings, if it is one.
`asListStr o = some l` exactly when `is_list_str` holds of `o` in the source,
and `l` is then the list itself. -/
def asListStr : Option TomlObject → Option (List String)
  | some (TomlObject.arr xs) => xs.mapM asStr
  | _ => none

/-- `is_list_str`: type assertion that an object is a list of strings.
(The source also applies it to a possibly-`None` lookup result;
`isinstance(None, list)` is false.) -/
def is_list_str (o : Option TomlObject) : Bool :=
  (asListStr o).isSome

/-- The exceptions the embedded code can raise: `TomlValueTypeError`,
`ProjectFileMissingError` and `TomlValueMissingError` from `project.py`,
plus `keyOrTypeError` for an uncaught Python `KeyError`/`TypeError`
(raised when a `packages` entry is not a dict with string fields). -/
inductive PyError where
  | tomlValueTypeError
  | projectFileMissingError
  | tomlValueMissingError (msg : String)
  | keyOrTypeError
deriving DecidableEq, Repr

/-- Python's `s.replace('-', '_')`: replacement of a single character is a
character-wise map. -/
def dashToUnderscore (s : String) : String :=
  ⟨s.data.map (fun c => if c == '-' then '_' else c)⟩

/-- `read_package_name_from_poetry`: read the package name from Poetry, given
the `pyproject.toml` convention. -/
def read_package_name_from_poetry (toml_dict : TomlDict) : Except PyError (Option String) :=
  match read_toml_variable toml_dict ["tool", "poetry", "name"] with
  | none => Except.ok none
  | some (TomlObject.str s) => Except.ok (some (dashToUnderscore s))
  | some _ => Except.error PyError.tomlValueTypeError

/-- `get_extra_modules_from_toml`: extra modules that should be
linted/formatted. -/
def get_extra_modules_from_toml (toml_dict : TomlDict) : Except PyError (List String) :=
  match read_toml_variable toml_dict ["tool", "summon", "plugins", "python", "extra-modules"] with
  | none => Except.ok []
  | some extras =>
    match asListStr (some extras) with
    | some l => Except.ok l
    | none => Except.error PyError.tomlValueTypeError

/-- `os.sep` on the platform the tests assume (POSIX). -/
def os_sep : String := "/"

/-- `get_packages_glob_pattern_from_package_entry`: the glob pattern from a
`pyproject.toml` Poetry entry in `packages`.  `none` models a Python
exception: a `KeyError` when `include` is missing, or a `TypeError` when the
entry is not a dict or a field used by `os.sep.join`/`glob` is not a string. -/
def get_packages_glob_pattern_from_package_entry (entry : TomlObject) : Option String :=
  match entry with
  | TomlObject.dict d =>
    match dictGet d "from", dictGet d "include" with
    | none, some (TomlObject.str inc) => some inc
    | some (TomlObject.str f), some (TomlObject.str inc) =>
        some (os_sep.intercalate [f, inc])
    | _, _ => none
  | _ => none

/-- `get_package_paths_from_toml`: the path of all packages specified
according to the Poetry specification.  `glob` stands for `base_path.glob`. -/
def get_package_paths_from_toml (glob : String → List String) (toml_dict : TomlDict) :
    Except PyError (Option (List String)) :=
  match read_toml_variable toml_dict ["tool", "poetry", "packages"] with
  | some (TomlObject.arr package_entries) =>
    match package_entries.mapM get_packages_glob_pattern_from_package_entry with
    | some patterns => Except.ok (some (patterns.map glob).flatten)
    | none => Except.error PyError.keyOrTypeError
  | _ =>
    match read_package_name_from_poetry toml_dict with
    | Except.error e => Except.error e
    | Except.ok none => Except.ok none
    | Except.ok (some package_name) =>
        Except.ok (some (glob package_name ++ glob (package_name ++ ".py")))

/-- `get_project_modules_from_toml`: the project modules (package paths,
rendered as strings — paths are already strings in this embedding). -/
def get_project_modules_from_toml (glob : String → List String) (toml_dict : TomlDict) :
    Except PyError (List String) :=
  match get_package_paths_from_toml glob toml_dict with
  | Except.error e => Except.error e
  | Except.ok none =>
      Except.error (PyError.tomlValueMissingError "Failed to get package from config files.")
  | Except.ok (some paths) => Except.ok paths

/-- `first_not_none`: the first element of a list which is not `None`. -/
def first_not_none {α : Type} : List (Option α) → Option α
  | [] => none
  | some x :: _ => some x
  | none :: rest => first_not_none rest

/-- The ambient effects of the program: globbing, the directory chain of the
current working directory, file existence, and TOML parsing. -/
structure Env where
  glob : String → List String
  hasFile : String → String → Bool
  ancestors : List String
  load : String → TomlDict

/-- Modelled from the spec: `reverse_directory_search` comes from the host
`summon` package and is not among this repository's sources.  Per the spec it
locates a configuration file by walking parent directories: it returns the
path of `filename` inside the first ancestor directory (nearest first) that
contains it, and `none` when no ancestor does. -/
def reverse_directory_search (hasFile : String → String → Bool) (filename : String)
    (ancestors : List String) : Option String :=
  (ancestors.find? (fun dir => hasFile dir filename)).map
    (fun dir => dir ++ os_sep ++ filename)

/-- The candidate configuration file names, in search order. -/
def candidate_filenames : List String := ["summon.toml", "pyproject.toml"]

/-- `get_config_file`: find the config file and load it as a `TomlDict`. -/
def get_config_file (env : Env) : Except PyError TomlDict :=
  match first_not_none (candidate_filenames.map
      (fun candidate => reverse_directory_search env.hasFile candidate env.ancestors)) with
  | none => Except.error PyError.projectFileMissingError
  | some toml_file => Except.ok (env.load toml_file)

/-- `get_test_modules`: the test modules from the vigent config file.  When
the argument is `none` (Python default), the config file is loaded; the
fallback branch always re-loads it, as the source does. -/
def get_test_modules (env : Env) (arg : Option TomlDict) : Except PyError (List String) :=
  match (match arg with
         | none => get_config_file env
         | some d => Except.ok d) with
  | Except.error e => Except.error e
  | Except.ok toml_dict =>
    match asListStr (read_toml_variable toml_dict
        ["tool", "summon", "plugins", "python", "test-modules"]) with
    | some test_modules_from_config => Except.ok test_modules_from_config
    | none =>
      match get_config_file env with
      | Except.error e => Except.error e
      | Except.ok d => get_project_modules_from_toml env.glob d

/-- `get_project_modules`: the project modules from the vigent config file. -/
def get_project_modules (env : Env) : Except PyError (List String) :=
  match get_config_file env with
  | Except.error e => Except.error e
  | Except.ok d => get_project_modules_from_toml env.glob d

/-- Python's `sorted({*l})` for strings: the sorted list of the distinct
elements of `l`. -/
def sorted_set (l : List String) : List String :=
  List.insertionSort (fun a b => a ≤ b) l.dedup

/-- `args_or_all_modules`: either the args that were passed in, or all
modules resolved from the config file.  A non-empty argument list is truthy
and is returned unchanged. -/
def args_or_all_modules (env : Env) (args : Option (List String)) :
    Except PyError (List String) :=
  match args with
  | some (a :: rest) => Except.ok (a :: rest)
  | _ =>
    match get_config_file env with
    | Except.error e => Except.error e
    | Except.ok toml_dict =>
      match get_project_modules_from_toml env.glob toml_dict with
      | Except.error e => Except.error e
      | Except.ok project_modules =>
        match get_extra_modules_from_toml toml_dict with
        | Except.error e => Except.error e
        | Except.ok extra_modules =>
          match get_test_modules env (some toml_dict) with
          | Except.error e => Except.error e
          | Except.ok test_modules =>
              Except.ok (sorted_set (project_modules ++ extra_modules ++ test_modules))

/-- One call to `summon.execute`: the argv it receives and its `raise_error`
keyword. -/
structure Invocation where
  argv : List String
  raise_error : Bool
deriving DecidableEq, Repr

/-- `lint` from `tasks.py`, as the ordered list of `execute` calls it makes.
The collected results are `run_invocations exec` of this list. -/
def lint (env : Env) (files : Option (List String)) (full_report : Bool) :
    Except PyError (List Invocation) :=
  match args_or_all_modules env files with
  | Except.error e => Except.error e
  | Except.ok subject =>
    if subject.isEmpty then Except.ok []
    else
      Except.ok
        [ { argv := "mypy" :: subject, raise_error := false },
          { argv := "flake8" :: subject, raise_error := false },
          { argv := "pylint" :: "-r" :: (if full_report then "y" else "n") :: subject,
            raise_error := false } ]

/-- `lint` from `plugin.py`: identical except that the pylint report flags are
built as the list `['-r', 'y']` / `['-r', 'n']` before splicing. -/
def plugin_lint (env : Env) (files : Option (List String)) (full_report : Bool) :
    Except PyError (List Invocation) :=
  match args_or_all_modules env files with
  | Except.error e => Except.error e
  | Except.ok subject =>
    if subject.isEmpty then Except.ok []
    else
      Except.ok
        [ { argv := "mypy" :: subject, raise_error := false },
          { argv := "flake8" :: subject, raise_error := false },
          { argv := ["pylint"] ++ (if full_report then ["-r", "y"] else ["-r", "n"]) ++ subject,
            raise_error := false } ]

/-- `format` from `tasks.py`, as the ordered list of `execute` calls it
makes. -/
def format (env : Env) (files : Option (List String)) (check : Bool) :
    Except PyError (List Invocation) :=
  let check_flag := if check then ["--check"] else []
  match args_or_all_modules env files with
  | Except.error e => Except.error e
  | Except.ok subject =>
    if subject.isEmpty then Except.ok []
    else
      let args := "-q" :: (check_flag ++ subject)
      Except.ok
        [ { argv := "black" :: args, raise_error := false },
          { argv := "isort" :: args, raise_error := false } ]

/-- Running a list of synchronous invocations in order collects the results
in the same order. -/
def run_invocations {R : Type} (exec : Invocation → R) (invs : List Invocation) : List R :=
  invs.map exec

/-! ### Theorems -/

/-- A concrete environment used by witnesses: the identity glob, a directory
chain in which `/proj` holds a `pyproject.toml`, and a loaded file whose only
content is the Poetry name `proj`. -/
def wEnv : Env where
  glob := fun p => [p]
  hasFile := fun dir f => dir == "/proj" && f == "pyproject.toml"
  ancestors := ["/proj/sub", "/proj", "/"]
  load := fun _ =>
    [("tool", TomlObject.dict [("poetry", TomlObject.dict [("name", TomlObject.str "proj")])])]

/-- C1: layered package-path resolution.  When `tool.poetry.packages` holds a
list whose entries yield glob patterns (the entry's `from` and `include`
joined with the path separator when `from` is present, else `include` alone),
the result is the concatenation of the globs of those patterns, in order.
Otherwise, when `tool.poetry.name` yields a package name, the result is the
globs of `<name>` and `<name>.py`; when it yields no name, the result is
`None`. -/
theorem get_package_paths_from_toml_spec (glob : String → List String) (d : TomlDict) :
    (∀ entries patterns,
        read_toml_variable d ["tool", "poetry", "packages"] = some (TomlObject.arr entries) →
        entries.mapM get_packages_glob_pattern_from_package_entry = some patterns →
        get_package_paths_from_toml glob d = Except.ok (some (patterns.map glob).flatten))
    ∧ ((∀ entries,
          read_toml_variable d ["tool", "poetry", "packages"] ≠ some (TomlObject.arr entries)) →
        (∀ name, read_package_name_from_poetry d = Except.ok (some name) →
          get_package_paths_from_toml glob d =
            Except.ok (some (glob name ++ glob (name ++ ".py"))))
        ∧ (read_package_name_from_poetry d = Except.ok none →
          get_package_paths_from_toml glob d = Except.ok none)) := by
  constructor
  · intro entries patterns h1 h2
    unfold get_package_paths_from_toml
    rw [h1]
    dsimp only
    rw [h2]
  · intro hne
    constructor
    · intro name hn
      unfold get_package_paths_from_toml
      cases hv : read_toml_variable d ["tool", "poetry", "packages"] with
      | none => dsimp only; rw [hn]
      | some v =>
        cases v with
        | arr xs => exact absurd hv (hne xs)
        | bool b => dsimp only; rw [hn]
        | int n => dsimp only; rw [hn]
        | float => dsimp only; rw [hn]
        | str s => dsimp only; rw [hn]
        | dict xs => dsimp only; rw [hn]
    · intro hn
      unfold get_package_paths_from_toml
      cases hv : read_toml_variable d ["tool", "poetry", "packages"] with
      | none => dsimp only; rw [hn]
      | some v =>
        cases v with
        | arr xs => exact absurd hv (hne xs)
        | bool b => dsimp only; rw [hn]
        | int n => dsimp only; rw [hn]
        | float => dsimp only; rw [hn]
        | str s => dsimp only; rw [hn]
        | dict xs => dsimp only; rw [hn]

/-- Witness for C1 at a concrete `packages` list with one bare `include`
entry and one `from`/`include` entry. -/
theorem get_package_paths_from_toml_spec_witness :
    get_package_paths_from_toml (fun p => [p])
        [("tool", TomlObject.dict [("poetry", TomlObject.dict [("packages",
          TomlObject.arr
            [TomlObject.dict [("include", TomlObject.str "pkg")],
             TomlObject.dict [("from", TomlObject.str "src"),
                              ("include", TomlObject.str "lib")]])])])]
      = Except.ok (some ["pkg", "src/lib"]) :=
  (get_package_paths_from_toml_spec (fun p => [p])
      [("tool", TomlObject.dict [("poetry", TomlObject.dict [("packages",
        TomlObject.arr
          [TomlObject.dict [("include", TomlObject.str "pkg")],
           TomlObject.dict [("from", TomlObject.str "src"),
                            ("include", TomlObject.str "lib")]])])])]).1
    [TomlObject.dict [("include", TomlObject.str "pkg")],
     TomlObject.dict [("from", TomlObject.str "src"), ("include", TomlObject.str "lib")]]
    ["pkg", "src/lib"] rfl rfl

/-- C2: test-module fallback.  When `tool.summon.plugins.python.test-modules`
is a list of strings, `get_test_modules` returns exactly it; otherwise it
returns the project modules derived from the configuration file. -/
theorem get_test_modules_spec (env : Env) (d : TomlDict) :
    (∀ l, asListStr (read_toml_variable d
          ["tool", "summon", "plugins", "python", "test-modules"]) = some l →
        get_test_modules env (some d) = Except.ok l)
    ∧ (asListStr (read_toml_variable d
          ["tool", "summon", "plugins", "python", "test-modules"]) = none →
        get_test_modules env (some d) = get_project_modules env) := by
  constructor
  · intro l h
    unfold get_test_modules
    dsimp only
    rw [h]
  · intro h
    unfold get_test_modules get_project_modules
    dsimp only
    rw [h]

/-- Witness for C2 at a dict whose `test-modules` is `["tests"]`. -/
theorem get_test_modules_spec_witness :
    get_test_modules wEnv
        (some [("tool", TomlObject.dict [("summon", TomlObject.dict [("plugins",
          TomlObject.dict [("python", TomlObject.dict
            [("test-modules", TomlObject.arr [TomlObject.str "tests"])])])])])])
      = Except.ok ["tests"] :=
  (get_test_modules_spec wEnv
      [("tool", TomlObject.dict [("summon", TomlObject.dict [("plugins",
        TomlObject.dict [("python", TomlObject.dict
          [("test-modules", TomlObject.arr [TomlObject.str "tests"])])])])])]).1
    ["tests"] rfl

/-- C8: asymmetric type handling for `test-modules`.  A present but mistyped
value does not raise `TomlValueTypeError`: the function silently computes the
fallback (the project modules from the freshly loaded configuration file);
and a `test-modules` value equal to the empty list counts as specified and
yields the empty list rather than the fallback. -/
theorem get_test_modules_mistyped (env : Env) (d : TomlDict) (v : TomlObject) :
    (read_toml_variable d ["tool", "summon", "plugins", "python", "test-modules"] = some v →
      asListStr (some v) = none →
      get_test_modules env (some d) = get_project_modules env)
    ∧ (read_toml_variable d ["tool", "summon", "plugins", "python", "test-modules"]
          = some (TomlObject.arr []) →
      get_test_modules env (some d) = Except.ok []) := by
  constructor
  · intro h1 h2
    unfold get_test_modules get_project_modules
    dsimp only
    rw [h1, h2]
  · intro h
    unfold get_test_modules
    dsimp only
    rw [h]
    rfl

/-- Witness for C8: `test-modules` is the integer `3`, so the result is the
fallback; the fallback is evaluated at the concrete environment. -/
theorem get_test_modules_mistyped_witness :
    get_test_modules wEnv
        (some [("tool", TomlObject.dict [("summon", TomlObject.dict [("plugins",
          TomlObject.dict [("python", TomlObject.dict
            [("test-modules", TomlObject.int 3)])])])])])
      = get_project_modules wEnv ∧
    get_project_modules wEnv = Except.ok ["proj", "proj.py"] :=
  ⟨(get_test_modules_mistyped wEnv
      [("tool", TomlObject.dict [("summon", TomlObject.dict [("plugins",
        TomlObject.dict [("python", TomlObject.dict
          [("test-modules", TomlObject.int 3)])])])])]
      (TomlObject.int 3)).1 rfl rfl, rfl⟩

/-- C6: for every toml dict, `get_extra_modules_from_toml` returns the empty
list when `tool.summon.plugins.python.extra-modules` is absent, returns the
value when it is a list of strings, and raises `TomlValueTypeError` exactly
when the value is present but not a list of strings. -/
theorem get_extra_modules_from_toml_spec (d : TomlDict) :
    (read_toml_variable d ["tool", "summon", "plugins", "python", "extra-modules"] = none →
      get_extra_modules_from_toml d = Except.ok [])
    ∧ (∀ v l,
        read_toml_variable d ["tool", "summon", "plugins", "python", "extra-modules"] = some v →
        asListStr (some v) = some l → get_extra_modules_from_toml d = Except.ok l)
    ∧ (get_extra_modules_from_toml d = Except.error PyError.tomlValueTypeError ↔
        ∃ v, read_toml_variable d ["tool", "summon", "plugins", "python", "extra-modules"]
              = some v ∧ asListStr (some v) = none) := by
  refine ⟨?_, ?_, ?_⟩
  · intro h
    unfold get_extra_modules_from_toml
    rw [h]
  · intro v l h1 h2
    unfold get_extra_modules_from_toml
    rw [h1]
    dsimp only
    rw [h2]
  · unfold get_extra_modules_from_toml
    constructor
    · intro h
      cases hv : read_toml_variable d ["tool", "summon", "plugins", "python", "extra-modules"] with
      | none => rw [hv] at h; exact absurd h (by simp)
      | some v =>
        rw [hv] at h
        dsimp only at h
        cases hl : asListStr (some v) with
        | none => exact ⟨v, rfl, hl⟩
        | some l => rw [hl] at h; exact absurd h (by simp)
    · rintro ⟨v, hv, hl⟩
      rw [hv]
      dsimp only
      rw [hl]

/-- Witness for C6 at a concrete dict whose `extra-modules` is
`["scripts", "tools"]`. -/
theorem get_extra_modules_from_toml_spec_witness :
    get_extra_modules_from_toml
        [("tool", TomlObject.dict [("summon", TomlObject.dict [("plugins", TomlObject.dict
          [("python", TomlObject.dict [("extra-modules",
            TomlObject.arr [TomlObject.str "scripts", TomlObject.str "tools"])])])])])]
      = Except.ok ["scripts", "tools"] :=
  (get_extra_modules_from_toml_spec
      [("tool", TomlObject.dict [("summon", TomlObject.dict [("plugins", TomlObject.dict
        [("python", TomlObject.dict [("extra-modules",
          TomlObject.arr [TomlObject.str "scripts", TomlObject.str "tools"])])])])])]).2.1
    (TomlObject.arr [TomlObject.str "scripts", TomlObject.str "tools"])
    ["scripts", "tools"] rfl rfl

/-- C7: for every toml dict, `read_package_name_from_poetry` returns `None`
when `tool.poetry.name` is absent, raises `TomlValueTypeError` when it is
present but not a string, and otherwise returns the name with every `-`
character replaced by `_`. -/
theorem read_package_name_from_poetry_spec (d : TomlDict) :
    (read_toml_variable d ["tool", "poetry", "name"] = none →
      read_package_name_from_poetry d = Except.ok none)
    ∧ (∀ v, read_toml_variable d ["tool", "poetry", "name"] = some v →
        (∀ s, v ≠ TomlObject.str s) →
        read_package_name_from_poetry d = Except.error PyError.tomlValueTypeError)
    ∧ (∀ s, read_toml_variable d ["tool", "poetry", "name"] = some (TomlObject.str s) →
        read_package_name_from_poetry d =
          Except.ok (some ⟨s.data.map (fun c => if c == '-' then '_' else c)⟩)) := by
  refine ⟨?_, ?_, ?_⟩
  · intro h
    unfold read_package_name_from_poetry
    rw [h]
  · intro v h hv
    unfold read_package_name_from_poetry
    rw [h]
    cases v with
    | str s => exact absurd rfl (hv s)
    | bool b => rfl
    | int n => rfl
    | float => rfl
    | arr xs => rfl
    | dict xs => rfl
  · intro s h
    unfold read_package_name_from_poetry
    rw [h]
    rfl

/-- Witness for C7 at the concrete name `my-proj-x`. -/
theorem read_package_name_from_poetry_spec_witness :
    read_package_name_from_poetry
        [("tool", TomlObject.dict [("poetry", TomlObject.dict
          [("name", TomlObject.str "my-proj-x")])])]
      = Except.ok (some "my_proj_x") :=
  (read_package_name_from_poetry_spec
      [("tool", TomlObject.dict [("poetry", TomlObject.dict
        [("name", TomlObject.str "my-proj-x")])])]).2.2 "my-proj-x" rfl

/-- C9: for every toml dict in which `tool.poetry.packages` is present but is
not a list, `get_package_paths_from_toml` raises no error and ignores the
value entirely, proceeding exactly as the name-derivation branch does. -/
theorem get_package_paths_mistyped_packages (glob : String → List String) (d : TomlDict)
    (v : TomlObject) :
    read_toml_variable d ["tool", "poetry", "packages"] = some v →
    (∀ xs, v ≠ TomlObject.arr xs) →
    get_package_paths_from_toml glob d =
      (match read_package_name_from_poetry d with
       | Except.error e => Except.error e
       | Except.ok none => Except.ok none
       | Except.ok (some package_name) =>
           Except.ok (some (glob package_name ++ glob (package_name ++ ".py")))) := by
  intro h hv
  unfold get_package_paths_from_toml
  rw [h]
  cases v with
  | arr xs => exact absurd rfl (hv xs)
  | bool b => rfl
  | int n => rfl
  | float => rfl
  | str s => rfl
  | dict xs => rfl

/-- Witness for C9: `packages` is the string `"oops"`, the name is present,
so the paths come from the name globs. -/
theorem get_package_paths_mistyped_packages_witness :
    get_package_paths_from_toml (fun p => [p])
        [("tool", TomlObject.dict [("poetry", TomlObject.dict
          [("packages", TomlObject.str "oops"), ("name", TomlObject.str "n")])])]
      = Except.ok (some ["n", "n.py"]) :=
  get_package_paths_mistyped_packages (fun p => [p])
    [("tool", TomlObject.dict [("poetry", TomlObject.dict
      [("packages", TomlObject.str "oops"), ("name", TomlObject.str "n")])])]
    (TomlObject.str "oops") rfl (fun _ h => TomlObject.noConfusion h)

/-- Helper: `get_config_file` as a two-level case split on the two directory
searches. -/
theorem get_config_file_eq (env : Env) :
    get_config_file env =
      match env.ancestors.find? (fun dir => env.hasFile dir "summon.toml") with
      | some dir => Except.ok (env.load (dir ++ os_sep ++ "summon.toml"))
      | none =>
        match env.ancestors.find? (fun dir => env.hasFile dir "pyproject.toml") with
        | some dir => Except.ok (env.load (dir ++ os_sep ++ "pyproject.toml"))
        | none => Except.error PyError.projectFileMissingError := by
  unfold get_config_file reverse_directory_search candidate_filenames
  dsimp only [List.map]
  cases h1 : env.ancestors.find? (fun dir => env.hasFile dir "summon.toml") with
  | some dir => rfl
  | none =>
    cases h2 : env.ancestors.find? (fun dir => env.hasFile dir "pyproject.toml") with
    | some dir => rfl
    | none => rfl

/-- C3: configuration-file discovery.  A `summon.toml` in any ancestor takes
precedence: when the walk finds one (nearest first), its parsed contents are
returned regardless of any `pyproject.toml`; only when no ancestor has a
`summon.toml` is the chain searched for `pyproject.toml`; and
`ProjectFileMissingError` is raised if and only if no ancestor contains
either file. -/
theorem get_config_file_spec (env : Env) :
    (∀ dir, env.ancestors.find? (fun dir => env.hasFile dir "summon.toml") = some dir →
        get_config_file env = Except.ok (env.load (dir ++ os_sep ++ "summon.toml")))
    ∧ (env.ancestors.find? (fun dir => env.hasFile dir "summon.toml") = none →
        ∀ dir, env.ancestors.find? (fun dir => env.hasFile dir "pyproject.toml") = some dir →
        get_config_file env = Except.ok (env.load (dir ++ os_sep ++ "pyproject.toml")))
    ∧ (get_config_file env = Except.error PyError.projectFileMissingError ↔
        ∀ dir ∈ env.ancestors,
          env.hasFile dir "summon.toml" = false ∧ env.hasFile dir "pyproject.toml" = false) := by
  have heq := get_config_file_eq env
  refine ⟨?_, ?_, ?_⟩
  · intro dir h
    rw [heq, h]
  · intro h1 dir h2
    rw [heq, h1]
    dsimp only
    rw [h2]
  · rw [heq]
    constructor
    · intro h dir hdir
      cases h1 : env.ancestors.find? (fun dir => env.hasFile dir "summon.toml") with
      | some d2 => rw [h1] at h; exact absurd h (by simp)
      | none =>
        cases h2 : env.ancestors.find? (fun dir => env.hasFile dir "pyproject.toml") with
        | some d2 => rw [h1, h2] at h; exact absurd h (by simp)
        | none =>
          have hs := List.find?_eq_none.mp h1 dir hdir
          have hp := List.find?_eq_none.mp h2 dir hdir
          simp only [Bool.not_eq_true] at hs hp
          exact ⟨hs, hp⟩
    · intro hall
      have h1 : env.ancestors.find? (fun dir => env.hasFile dir "summon.toml") = none :=
        List.find?_eq_none.mpr (fun x hx => by simp [(hall x hx).1])
      have h2 : env.ancestors.find? (fun dir => env.hasFile dir "pyproject.toml") = none :=
        List.find?_eq_none.mpr (fun x hx => by simp [(hall x hx).2])
      rw [h1, h2]

/-- Witness for C3: in `wEnv`, no ancestor has a `summon.toml` and `/proj`
is the first ancestor with a `pyproject.toml`. -/
theorem get_config_file_spec_witness :
    get_config_file wEnv
      = Except.ok (wEnv.load ("/proj" ++ os_sep ++ "pyproject.toml")) :=
  (get_config_file_spec wEnv).2.1 rfl "/proj" rfl

/-- C4: user-supplied overrides.  A non-empty argument list is returned
unchanged, for every environment (so the configuration file is never
consulted); for `None` or an empty list the result is the sorted,
duplicate-free union of the project modules, the extra modules and the test
modules read from the configuration file. -/
theorem args_or_all_modules_spec (env : Env) :
    (∀ a rest, args_or_all_modules env (some (a :: rest)) = Except.ok (a :: rest))
    ∧ (∀ args, (args = none ∨ args = some []) →
        ∀ d proj extra testm,
          get_config_file env = Except.ok d →
          get_project_modules_from_toml env.glob d = Except.ok proj →
          get_extra_modules_from_toml d = Except.ok extra →
          get_test_modules env (some d) = Except.ok testm →
          ∃ r, args_or_all_modules env args = Except.ok r ∧
            List.Sorted (fun a b : String => a ≤ b) r ∧ r.Nodup ∧
            (∀ x, x ∈ r ↔ x ∈ proj ∨ x ∈ extra ∨ x ∈ testm)) := by
  constructor
  · intro a rest
    rfl
  · intro args hargs d proj extra testm h1 h2 h3 h4
    have hres : args_or_all_modules env args
        = Except.ok (sorted_set (proj ++ extra ++ testm)) := by
      rcases hargs with h | h <;> subst h <;>
        · unfold args_or_all_modules
          dsimp only
          rw [h1]
          dsimp only
          rw [h2]
          dsimp only
          rw [h3]
          dsimp only
          rw [h4]
    refine ⟨sorted_set (proj ++ extra ++ testm), hres, ?_, ?_, ?_⟩
    · exact List.sorted_insertionSort _ _
    · exact (List.perm_insertionSort (fun a b : String => a ≤ b)
        (proj ++ extra ++ testm).dedup).nodup_iff.mpr (List.nodup_dedup _)
    · intro x
      unfold sorted_set
      rw [List.mem_insertionSort, List.mem_dedup, List.mem_append, List.mem_append, or_assoc]

/-- Witness for C4: in `wEnv` the project modules are `["proj", "proj.py"]`,
there are no extra modules, and the test modules fall back to the project
modules; the union is sorted and duplicate-free. -/
theorem args_or_all_modules_spec_witness :
    ∃ r, args_or_all_modules wEnv none = Except.ok r ∧
      List.Sorted (fun a b : String => a ≤ b) r ∧ r.Nodup ∧
      (∀ x, x ∈ r ↔ x ∈ ["proj", "proj.py"] ∨ x ∈ ([] : List String)
        ∨ x ∈ ["proj", "proj.py"]) :=
  (args_or_all_modules_spec wEnv).2 none (Or.inl rfl)
    [("tool", TomlObject.dict [("poetry", TomlObject.dict [("name", TomlObject.str "proj")])])]
    ["proj", "proj.py"] [] ["proj", "proj.py"] rfl rfl rfl rfl

/-- C5: fixed sequential tool invocation.  For a resolved non-empty module
list, `lint` builds exactly three invocations, in order `mypy`, `flake8`,
`pylint -r y/n`, all with `raise_error=False`; the closure registered by
`plugin.py` builds the same list; and running them synchronously collects the
results in the same order. -/
theorem lint_spec {R : Type} (exec : Invocation → R) (env : Env)
    (files : Option (List String)) (full_report : Bool) (subject : List String)
    (hs : args_or_all_modules env files = Except.ok subject) (hne : subject ≠ []) :
    lint env files full_report = Except.ok
        [{ argv := "mypy" :: subject, raise_error := false },
         { argv := "flake8" :: subject, raise_error := false },
         { argv := "pylint" :: "-r" :: (if full_report then "y" else "n") :: subject, raise_error := false }]
    ∧ plugin_lint env files full_report = lint env files full_report
    ∧ Except.map (run_invocations exec) (lint env files full_report) = Except.ok
        [exec { argv := "mypy" :: subject, raise_error := false },
         exec { argv := "flake8" :: subject, raise_error := false },
         exec { argv := "pylint" :: "-r" :: (if full_report then "y" else "n") :: subject, raise_error := false }] := by
  cases subject with
  | nil => exact absurd rfl hne
  | cons a t =>
    have hlint : lint env files full_report = Except.ok
        [{ argv := "mypy" :: a :: t, raise_error := false },
         { argv := "flake8" :: a :: t, raise_error := false },
         { argv := "pylint" :: "-r" :: (if full_report then "y" else "n") :: a :: t, raise_error := false }] := by
      unfold lint
      rw [hs]
      rfl
    have hplug : plugin_lint env files full_report = Except.ok
        [{ argv := "mypy" :: a :: t, raise_error := false },
         { argv := "flake8" :: a :: t, raise_error := false },
         { argv := "pylint" :: "-r" :: (if full_report then "y" else "n") :: a :: t, raise_error := false }] := by
      unfold plugin_lint
      rw [hs]
      cases full_report <;> rfl
    refine ⟨hlint, ?_, ?_⟩
    · rw [hplug, hlint]
    · rw [hlint]
      rfl

/-- Witness for C5 at a user-supplied file list `["m.py"]` with
`full_report` set, collecting each invocation's argv as its result. -/
theorem lint_spec_witness :
    lint wEnv (some ["m.py"]) true = Except.ok
        [{ argv := ["mypy", "m.py"], raise_error := false },
         { argv := ["flake8", "m.py"], raise_error := false },
         { argv := ["pylint", "-r", "y", "m.py"], raise_error := false }]
    ∧ plugin_lint wEnv (some ["m.py"]) true = lint wEnv (some ["m.py"]) true
    ∧ Except.map (run_invocations Invocation.argv) (lint wEnv (some ["m.py"]) true)
      = Except.ok [["mypy", "m.py"], ["flake8", "m.py"], ["pylint", "-r", "y", "m.py"]] :=
  lint_spec Invocation.argv wEnv (some ["m.py"]) true ["m.py"] rfl (by decide)

/-- An environment whose configuration resolves to an empty module set:
`tool.poetry.packages` is the empty list, so every module list is empty. -/
def wEnvEmpty : Env where
  glob := fun _ => []
  hasFile := fun dir f => dir == "/proj" && f == "pyproject.toml"
  ancestors := ["/proj"]
  load := fun _ =>
    [("tool", TomlObject.dict [("poetry", TomlObject.dict
      [("packages", TomlObject.arr [])])])]

/-- C10: no-op on an empty module set.  Whenever the resolved subject module
list is empty, `lint` (both versions) and `format` return the empty result
list and build no invocation at all. -/
theorem empty_modules_no_invocations (env : Env) (files : Option (List String))
    (full_report check : Bool)
    (h : args_or_all_modules env files = Except.ok []) :
    lint env files full_report = Except.ok []
    ∧ plugin_lint env files full_report = Except.ok []
    ∧ format env files check = Except.ok [] := by
  refine ⟨?_, ?_, ?_⟩
  · unfold lint
    rw [h]
    rfl
  · unfold plugin_lint
    rw [h]
    rfl
  · unfold format
    dsimp only
    rw [h]
    rfl

/-- Witness for C10: in `wEnvEmpty` the resolved module set is empty, and no
invocation is built. -/
theorem empty_modules_no_invocations_witness :
    lint wEnvEmpty none true = Except.ok []
    ∧ plugin_lint wEnvEmpty none true = Except.ok []
    ∧ format wEnvEmpty none true = Except.ok [] :=
  empty_modules_no_invocations wEnvEmpty none true true rfl

end SummonPython
